import Mathlib

/-!
Shallow embedding of the state-reconciliation and risk-detection core of the
Companion project-tracking application, together with proofs about it.

The definitions mirror the TypeScript source:
* `types.ts` — the data model (`StructuredState`, `Update`, `RiskAlert`, `Project`);
* `services/geminiService.ts` — `detectRiskAlerts` (the Risk Detector);
* the Gemini-backed `processUpdate` retry loop (embedded over an oracle of
  per-attempt outcomes);
* `hooks/useProjects.ts` — `addProjectUpdate` (the client-side store update);
* the server repository `addProjectUpdate` (SQL `coalesce` on `current_state`);
* `ProjectView.handleUpdate` — one full submit-update cycle;
* `ProjectOverview` — the health-score metric and its label buckets.

JavaScript numbers used as millisecond timestamps and scores are modelled as
`Int`; ambient `Date.now()` reads become explicit parameters so the functions
are total and executable.
-/

namespace Companion

/-- `RiskAlert.type` in `types.ts`:
`'blocker_surge' | 'status_regression' | 'stalled_progress'`. -/
inductive AlertType where
  | blocker_surge
  | status_regression
  | stalled_progress
deriving DecidableEq, BEq, Repr

/-- `RiskAlert.severity` in `types.ts`: `'high' | 'medium' | 'low'`. -/
inductive Severity where
  | high
  | medium
  | low
deriving DecidableEq, BEq, Repr

/-- `RiskAlert` in `types.ts`. `timestamp` is a JS millisecond epoch value. -/
structure RiskAlert where
  type : AlertType
  severity : Severity
  message : String
  timestamp : Int
deriving DecidableEq, Repr

/-- `TaskItem` in `types.ts`. -/
structure TaskItem where
  task : String
  effort : Option String
  dependencies : Option (List String)
deriving DecidableEq, Repr

/-- The union type `string[] | TaskItem[]` of `StructuredState.nextActions`. -/
inductive NextActions where
  | strings (items : List String)
  | tasks (items : List TaskItem)
deriving DecidableEq, Repr

/-- `StructuredState` in `types.ts`. -/
structure StructuredState where
  statusSummary : String
  completed : List String
  inProgress : List String
  blockers : List String
  ideasCaptured : List String
  decisionsMade : List String
  nextActions : NextActions
  clarifyingQuestion : String
  emotionalFeedback : String
deriving DecidableEq, Repr

/-- `Comment` in `types.ts`. -/
structure Comment where
  id : String
  author : String
  text : String
  timestamp : Int
deriving DecidableEq, Repr

/-- `Update` in `types.ts`: one user-submitted entry. `structuredState` is
nullable (`null` when the processing cycle failed). -/
structure Update where
  id : Option String
  projectId : Option String
  text : String
  structuredState : Option StructuredState
  timestamp : Int
  tags : Option (List String)
  comments : List Comment
deriving DecidableEq, Repr

/-- `Project.status` in `types.ts`: `'active' | 'paused'`. -/
inductive ProjectStatus where
  | active
  | paused
deriving DecidableEq, Repr

/-- `Project` in `types.ts` — the aggregate root. -/
structure Project where
  id : String
  name : String
  goal : String
  status : ProjectStatus
  updates : List Update
  currentState : Option StructuredState
  previousState : Option StructuredState
  riskAlerts : List RiskAlert
  initialContext : Option String
  shareId : Option String
  isShared : Bool
  createdAt : Option Int
  updatedAt : Option Int
deriving DecidableEq, Repr

/-- ASCII lowering of a string, mirroring JS `String.prototype.toLowerCase`
on the ASCII keyword set the detector uses. -/
def lowerStr (s : String) : String :=
  ⟨s.data.map Char.toLower⟩

/-- JS `String.prototype.includes`: `pat` occurs as a contiguous substring of
`hay`. -/
def containsSubstr (hay pat : String) : Bool :=
  (List.range (hay.data.length + 1)).any (fun i => pat.data.isPrefixOf (hay.data.drop i))

/-- The fixed keyword set of the status-regression rule in
`detectRiskAlerts` (`services/geminiService.ts`). -/
def regressionKeywords : List String :=
  ["struggling", "stuck", "frustrated", "behind", "delayed", "problem", "issue", "concern"]

/-- The blocker-surge message template of `detectRiskAlerts`
(`services/geminiService.ts`). -/
def surgeMessage (prevCount currCount : Nat) : String :=
  "Blockers increased from " ++ toString prevCount ++ " to " ++ toString currCount ++
    ". Consider prioritizing unblocking efforts."

/-- `detectRiskAlerts` from `services/geminiService.ts`.  The ambient
`Date.now()` read becomes the explicit `now` parameter; everything else is a
direct transcription.  Alerts are pushed in source order: blocker surge,
then status regression, then stalled progress. -/
def detectRiskAlerts (previousState : Option StructuredState)
    (currentState : StructuredState) (now : Int) : List RiskAlert :=
  match previousState with
  | none => []
  | some prev =>
    let prevBlockerCount := prev.blockers.length
    let currBlockerCount := currentState.blockers.length
    let surgeAlerts : List RiskAlert :=
      if currBlockerCount > prevBlockerCount ∧ currBlockerCount ≥ 3 then
        [{ type := .blocker_surge,
           severity := if currBlockerCount ≥ 5 then .high else .medium,
           message := surgeMessage prevBlockerCount currBlockerCount,
           timestamp := now }]
      else []
    let hasRegression :=
      regressionKeywords.any (fun keyword =>
        containsSubstr (lowerStr currentState.statusSummary) keyword)
    let regressionAlerts : List RiskAlert :=
      if hasRegression then
        [{ type := .status_regression,
           severity := .medium,
           message := "Status summary indicates challenges or setbacks. Team support may be needed.",
           timestamp := now }]
      else []
    let prevInProgressCount := prev.inProgress.length
    let currInProgressCount := currentState.inProgress.length
    let prevCompletedCount := prev.completed.length
    let currCompletedCount := currentState.completed.length
    let stalledAlerts : List RiskAlert :=
      if currInProgressCount = prevInProgressCount ∧
          currCompletedCount = prevCompletedCount ∧ prevInProgressCount > 0 then
        [{ type := .stalled_progress,
           severity := .low,
           message := "No change in completed or in-progress items. Project may need momentum boost.",
           timestamp := now }]
      else []
    surgeAlerts ++ regressionAlerts ++ stalledAlerts

/-- A convenient empty structured state for building concrete test inputs. -/
def emptyState : StructuredState :=
  { statusSummary := ""
    completed := []
    inProgress := []
    blockers := []
    ideasCaptured := []
    decisionsMade := []
    nextActions := .strings []
    clarifyingQuestion := ""
    emotionalFeedback := "" }

example :
    detectRiskAlerts (some emptyState)
      { emptyState with blockers := ["a", "b", "c"] } 7 =
      [{ type := .blocker_surge, severity := .medium,
         message := surgeMessage 0 3, timestamp := 7 }] := by
  decide

example :
    detectRiskAlerts (some emptyState)
      { emptyState with statusSummary := "We are STUCK here" } 7 =
      [{ type := .status_regression, severity := .medium,
         message := "Status summary indicates challenges or setbacks. Team support may be needed.",
         timestamp := 7 }] := by
  decide

/-- JS `Array.prototype.slice(-n)`: the last `min n l.length` elements. -/
def sliceLast (n : Nat) (l : List α) : List α :=
  l.drop (l.length - n)

/-- The per-project updater inside `addProjectUpdate` in `hooks/useProjects.ts`:
projects with a different id are returned unchanged; the matching project gets
the enriched update appended, `currentState := structuredState ?? currentState`
and `updatedAt := update.timestamp`. -/
def applyAddUpdate (projectId : String) (enrichedUpdate : Update)
    (structuredState : Option StructuredState) (project : Project) : Project :=
  if project.id ≠ projectId then project
  else
    { project with
      updates := project.updates ++ [enrichedUpdate]
      currentState :=
        match structuredState with
        | some s => some s
        | none => project.currentState
      updatedAt := some enrichedUpdate.timestamp }

/-- The state transition of `addProjectUpdate` in `hooks/useProjects.ts`
on the full project list (`setProjects(prev => prev.map(...))`). -/
def addProjectUpdate (projects : List Project) (projectId : String)
    (enrichedUpdate : Update) (structuredState : Option StructuredState) : List Project :=
  projects.map (applyAddUpdate projectId enrichedUpdate structuredState)

/-- The `update projects set ... current_state = coalesce($2, current_state)`
statement of the server-side `addProjectUpdate` (projects repository): a null
structured state leaves `current_state` untouched while `updated_at` is set
to the transaction clock. -/
def serverApplyAddUpdate (structuredState : Option StructuredState)
    (nowUtc : Int) (row : Project) : Project :=
  { row with
    currentState :=
      match structuredState with
      | some s => some s
      | none => row.currentState
    updatedAt := some nowUtc }

/-- One `handleUpdate` cycle of `ProjectView` (the Project Aggregate's
submit-update operation), embedded as a function of the processing outcome.

* `outcome = none` models `processUpdate` rejecting: the `catch` block only
  sets an error message, so the project is returned unchanged.
* `outcome = some structuredData` models the success path:
  1. `previousState := project.currentState` is captured;
  2. `newAlerts := detectRiskAlerts(project.previousState, structuredData)`;
  3. `addProjectUpdate` appends the update row and installs the new state;
  4. `updateProject` then writes the captured `previousState` and, when
     `newAlerts` is non-empty, `[...riskAlerts.slice(-9), ...newAlerts]`.

`alertNow` is the `Date.now()` read inside the detector and `updateTs` the
server-side `created_at` of the inserted update row (`updateId` its row id). -/
def handleUpdate (project : Project) (updateText : String)
    (outcome : Option StructuredState) (tags : List String)
    (updateId : String) (alertNow updateTs : Int) : Project :=
  match outcome with
  | none => project
  | some structuredData =>
    let previousState := project.currentState
    let newAlerts := detectRiskAlerts project.previousState structuredData alertNow
    let enrichedUpdate : Update :=
      { id := some updateId
        projectId := some project.id
        text := updateText
        structuredState := some structuredData
        timestamp := updateTs
        tags := some tags
        comments := [] }
    let afterAdd := applyAddUpdate project.id enrichedUpdate (some structuredData) project
    { afterAdd with
      previousState := previousState
      riskAlerts :=
        if newAlerts.length > 0 then sliceLast 9 afterAdd.riskAlerts ++ newAlerts
        else afterAdd.riskAlerts }

/-- The health-score computation of `ProjectOverview.tsx`: start at 100,
subtract `blockerCount * 10`, subtract 30 when there was no update in the
last 7 days, subtract 20 when any risk alert is recorded, then clamp to
`[0, 100]` via `Math.max(0, Math.min(100, ...))`. `now` is the component's
`Date.now()` read. -/
def healthScore (project : Project) (now : Int) : Int :=
  let sevenDaysAgo := now - 7 * 24 * 60 * 60 * 1000
  let recentUpdates := project.updates.filter (fun u => u.timestamp > sevenDaysAgo)
  let blockerCount : Int := (project.currentState.map (fun s => (s.blockers.length : Int))).getD 0
  let recentActivity := recentUpdates.length
  let hasRisks := project.riskAlerts.length > 0
  let score0 : Int := 100
  let score1 := score0 - blockerCount * 10
  let score2 := score1 - (if recentActivity = 0 then 30 else 0)
  let score3 := score2 - (if hasRisks then 20 else 0)
  max 0 (min 100 score3)

/-- `getHealthStatus` of `ProjectOverview.tsx` (label component only). -/
def getHealthStatus (score : Int) : String :=
  if score ≥ 80 then "Excellent"
  else if score ≥ 60 then "Good"
  else if score ≥ 40 then "Needs Attention"
  else "Critical"

/-- Result of one run of the Gemini `processUpdate` retry loop: the value
returned or error thrown, the number of API attempts actually made, and the
backoff delays (in ms) slept between consecutive attempts. -/
structure ProcessRun where
  result : Except String StructuredState
  attemptsUsed : Nat
  delays : List Nat
deriving Repr

/-- The body of the `while (attempts < maxAttempts)` loop of the Gemini
`processUpdate`.  `oracle k` is the outcome of the `k`-th API call
(`some state` when `generateContent` returns parseable JSON, `none` when the
call throws).  On failure `attempts` is incremented; when it is still below
5 the loop sleeps `2 ^ attempts * 100` ms and retries, otherwise it throws
`"Failed to process update after multiple attempts."`.  `fuel` bounds the
recursion; the loop-exit fallthrough (`"Should not be reached"`) is the
`fuel = 0` case. -/
def processUpdateGo (oracle : Nat → Option StructuredState) :
    Nat → Nat → ProcessRun
  | _, 0 => ⟨.error "Failed to process update.", 0, []⟩
  | attempts, fuel + 1 =>
    match oracle attempts with
    | some s => ⟨.ok s, 1, []⟩
    | none =>
      let a := attempts + 1
      if a < 5 then
        let rest := processUpdateGo oracle a fuel
        ⟨rest.result, rest.attemptsUsed + 1, 2 ^ a * 100 :: rest.delays⟩
      else ⟨.error "Failed to process update after multiple attempts.", 1, []⟩

/-- The Gemini `processUpdate` retry loop (`maxAttempts = 5`, `attempts = 0`),
as a function of the per-attempt outcome oracle. -/
def processUpdate (oracle : Nat → Option StructuredState) : ProcessRun :=
  processUpdateGo oracle 0 5

example : (processUpdate (fun _ => none)).delays = [200, 400, 800, 1600] := by decide

example : (processUpdate (fun _ => none)).attemptsUsed = 5 := by decide

example : (processUpdate (fun k => if k = 2 then some emptyState else none)).delays =
    [200, 400] := by decide

/-- C8: for every `StructuredState` `S` (and any clock reading),
`detectRiskAlerts` with a null previous state returns the empty list of
alerts — the first update of a project never produces risk alerts. -/
theorem C8_first_update_no_alerts (S : StructuredState) (now : Int) :
    detectRiskAlerts none S now = [] := rfl

/-- C2 (code evaluation): when the processing step of a `handleUpdate` cycle
fails (`outcome = none`), the catch branch leaves the project completely
unchanged — in particular NO `Update` record carrying the raw text is
appended, so the update list keeps its old length.  This contradicts the
claim that the raw text is still persisted with a null structured state. -/
theorem C2_failed_cycle_appends_nothing (project : Project) (updateText : String)
    (tags : List String) (updateId : String) (alertNow updateTs : Int) :
    handleUpdate project updateText none tags updateId alertNow updateTs = project ∧
    (handleUpdate project updateText none tags updateId alertNow updateTs).updates.length =
      project.updates.length := ⟨rfl, rfl⟩

/-- C7: recording an update with a null structured state leaves
`currentState` unchanged and touches no project field other than the update
list (the new record is appended) and `updatedAt`; the server-side
repository's `coalesce($2, current_state)` likewise leaves the stored
current state untouched. -/
theorem C7_null_state_never_overwrites (project : Project) (enrichedUpdate : Update)
    (nowUtc : Int) :
    (applyAddUpdate project.id enrichedUpdate none project).currentState =
        project.currentState ∧
    (applyAddUpdate project.id enrichedUpdate none project).updates =
        project.updates ++ [enrichedUpdate] ∧
    (applyAddUpdate project.id enrichedUpdate none project).updatedAt =
        some enrichedUpdate.timestamp ∧
    (applyAddUpdate project.id enrichedUpdate none project).id = project.id ∧
    (applyAddUpdate project.id enrichedUpdate none project).name = project.name ∧
    (applyAddUpdate project.id enrichedUpdate none project).goal = project.goal ∧
    (applyAddUpdate project.id enrichedUpdate none project).status = project.status ∧
    (applyAddUpdate project.id enrichedUpdate none project).previousState =
        project.previousState ∧
    (applyAddUpdate project.id enrichedUpdate none project).riskAlerts =
        project.riskAlerts ∧
    (applyAddUpdate project.id enrichedUpdate none project).initialContext =
        project.initialContext ∧
    (applyAddUpdate project.id enrichedUpdate none project).shareId = project.shareId ∧
    (applyAddUpdate project.id enrichedUpdate none project).isShared = project.isShared ∧
    (applyAddUpdate project.id enrichedUpdate none project).createdAt =
        project.createdAt ∧
    (serverApplyAddUpdate none nowUtc project).currentState = project.currentState := by
  simp [applyAddUpdate, serverApplyAddUpdate]

/-- C9 (counterexample): the detector is NOT a function of its two state
arguments alone — it reads the ambient clock for the alert timestamps, so
two calls on equal states at different instants return different alert
sequences. -/
theorem C9_timestamp_counterexample :
    detectRiskAlerts (some emptyState) { emptyState with blockers := ["a", "b", "c"] } 0 ≠
      detectRiskAlerts (some emptyState) { emptyState with blockers := ["a", "b", "c"] } 1 := by
  decide

/-- C9 (amended): the detector is deterministic in its two state arguments
up to the alert timestamps: the types, severities and messages of the alerts
produced from equal states are equal regardless of the clock, and every
timestamp equals the `Date.now()` value read during the call. -/
theorem C9_deterministic_given_clock (previousState : Option StructuredState)
    (currentState : StructuredState) (t₁ t₂ : Int) :
    (detectRiskAlerts previousState currentState t₁).map
        (fun a => (a.type, a.severity, a.message)) =
      (detectRiskAlerts previousState currentState t₂).map
        (fun a => (a.type, a.severity, a.message)) ∧
    (detectRiskAlerts previousState currentState t₁).map (fun a => a.timestamp) =
      List.replicate (detectRiskAlerts previousState currentState t₁).length t₁ := by
  cases previousState with
  | none => simp [detectRiskAlerts]
  | some prev =>
    simp only [detectRiskAlerts]
    constructor <;> split_ifs <;> simp [List.replicate]

/-- C5: with a non-null previous state, the detector emits a `blocker_surge`
alert exactly when the current blocker count strictly exceeds the previous
one and is at least 3; the alert's severity is `high` when the current count
is at least 5 and `medium` otherwise, its timestamp is the clock reading,
and its message spells out both counts.  In particular no `blocker_surge`
alert exists when the current count is below 3. -/
theorem C5_blocker_surge_rule (prev curr : StructuredState) (now : Int) :
    (detectRiskAlerts (some prev) curr now).filter
        (fun a => decide (a.type = AlertType.blocker_surge)) =
      (if curr.blockers.length > prev.blockers.length ∧ curr.blockers.length ≥ 3 then
        [{ type := .blocker_surge,
           severity := if curr.blockers.length ≥ 5 then .high else .medium,
           message := surgeMessage prev.blockers.length curr.blockers.length,
           timestamp := now }]
      else []) ∧
    ∃ s t u, surgeMessage prev.blockers.length curr.blockers.length =
      s ++ toString prev.blockers.length ++ t ++ toString curr.blockers.length ++ u := by
  constructor
  · simp only [detectRiskAlerts, List.filter_append]
    split_ifs <;> simp [List.filter]
  · exact ⟨"Blockers increased from ", " to ",
      ". Consider prioritizing unblocking efforts.", rfl⟩

/-- C10: one invocation of the detector returns at most one alert of each of
the three types — hence at most 3 alerts — and the alerts that are present
appear in the fixed order blocker_surge, status_regression,
stalled_progress. -/
theorem C10_at_most_one_per_type_in_order (previousState : Option StructuredState)
    (currentState : StructuredState) (now : Int) :
    List.Sublist ((detectRiskAlerts previousState currentState now).map (fun a => a.type))
        [AlertType.blocker_surge, AlertType.status_regression, AlertType.stalled_progress] ∧
    (detectRiskAlerts previousState currentState now).length ≤ 3 ∧
    ((detectRiskAlerts previousState currentState now).map (fun a => a.type)).count
        AlertType.blocker_surge ≤ 1 ∧
    ((detectRiskAlerts previousState currentState now).map (fun a => a.type)).count
        AlertType.status_regression ≤ 1 ∧
    ((detectRiskAlerts previousState currentState now).map (fun a => a.type)).count
        AlertType.stalled_progress ≤ 1 := by
  cases previousState with
  | none => simp [detectRiskAlerts]
  | some prev =>
    simp only [detectRiskAlerts]
    split_ifs <;> refine ⟨?_, ?_, ?_, ?_, ?_⟩ <;> simp <;> decide

/-- The health-score formula in the words of the specification: 100, minus
10 per blocker of the current state, minus 30 when there was no update in
the last 7 days, minus 20 when any risk alert is recorded, clamped to
`[0, 100]`.  Stated separately from `healthScore` (the transcription of the
code) so C4 can compare the two. -/
def healthScoreSpec (project : Project) (now : Int) : Int :=
  let blockerCount : Int := (project.currentState.map (fun s => (s.blockers.length : Int))).getD 0
  let recentCount :=
    (project.updates.filter (fun u => u.timestamp > now - 7 * 24 * 60 * 60 * 1000)).length
  max 0 (min 100
    (100 - 10 * blockerCount - (if recentCount = 0 then 30 else 0) -
      (if project.riskAlerts.length > 0 then 20 else 0)))

/-- A project with 15 blockers, no updates at all (hence none in the last
7 days) and one recorded risk alert: the clamping example of the claim. -/
def clampDemoProject : Project :=
  { id := "p-demo"
    name := "Demo"
    goal := "Ship"
    status := .active
    updates := []
    currentState := some { emptyState with
      blockers := ["b1", "b2", "b3", "b4", "b5", "b6", "b7", "b8", "b9", "b10",
        "b11", "b12", "b13", "b14", "b15"] }
    previousState := none
    riskAlerts :=
      [{ type := .status_regression, severity := .medium, message := "m", timestamp := 0 }]
    initialContext := none
    shareId := none
    isShared := false
    createdAt := some 0
    updatedAt := some 0 }

/-- C4: the health score of `ProjectOverview` equals 100 minus 10 per
blocker, minus 30 when no update fell in the last 7 days, minus 20 when any
risk alert is recorded, clamped to `[0, 100]`; the label is Excellent for
scores ≥ 80, Good for ≥ 60, Needs Attention for ≥ 40 and Critical below;
and the 15-blocker/no-recent-update/has-alerts project scores exactly 0. -/
theorem C4_health_score_formula :
    (∀ (project : Project) (now : Int),
      healthScore project now = healthScoreSpec project now) ∧
    (∀ score : Int,
      (getHealthStatus score = "Excellent" ↔ 80 ≤ score) ∧
      (getHealthStatus score = "Good" ↔ 60 ≤ score ∧ score < 80) ∧
      (getHealthStatus score = "Needs Attention" ↔ 40 ≤ score ∧ score < 60) ∧
      (getHealthStatus score = "Critical" ↔ score < 40)) ∧
    healthScore clampDemoProject 0 = 0 := by
  refine ⟨?_, ?_, ?_⟩
  · intro project now
    simp only [healthScore, healthScoreSpec]
    split_ifs <;> omega
  · intro score
    simp only [getHealthStatus]
    split_ifs <;> refine ⟨?_, ?_, ?_, ?_⟩ <;> simp <;> omega
  · rfl

/-- C6: for every oracle of per-attempt outcomes, the Gemini `processUpdate`
retry loop makes at most 5 API attempts; every backoff delay it sleeps is
exactly double the previous one; and when the first 5 attempts all fail it
ends in the thrown error — never a partial or empty structured state. -/
theorem C6_retry_policy (oracle : Nat → Option StructuredState) :
    (processUpdate oracle).attemptsUsed ≤ 5 ∧
    (∀ i d₁ d₂, (processUpdate oracle).delays.get? i = some d₁ →
      (processUpdate oracle).delays.get? (i + 1) = some d₂ → d₂ = 2 * d₁) ∧
    ((∀ k, k < 5 → oracle k = none) →
      (processUpdate oracle).result =
          .error "Failed to process update after multiple attempts." ∧
      (processUpdate oracle).attemptsUsed = 5) := by
  refine ⟨?_, ?_, ?_⟩
  · rcases h0 : oracle 0 with _ | s0 <;>
      rcases h1 : oracle 1 with _ | s1 <;>
      rcases h2 : oracle 2 with _ | s2 <;>
      rcases h3 : oracle 3 with _ | s3 <;>
      rcases h4 : oracle 4 with _ | s4 <;>
      simp_all [processUpdate, processUpdateGo]
  · rcases h0 : oracle 0 with _ | s0 <;>
      rcases h1 : oracle 1 with _ | s1 <;>
      rcases h2 : oracle 2 with _ | s2 <;>
      rcases h3 : oracle 3 with _ | s3 <;>
      rcases h4 : oracle 4 with _ | s4 <;>
      simp_all [processUpdate, processUpdateGo] <;>
      (try intro i d₁ d₂ hd₁ hd₂) <;>
      (try rcases i with _ | _ | _ | _ | i) <;>
      (try simp_all [List.get?]) <;>
      omega
  · intro hall
    have h0 := hall 0 (by omega)
    have h1 := hall 1 (by omega)
    have h2 := hall 2 (by omega)
    have h3 := hall 3 (by omega)
    have h4 := hall 4 (by omega)
    simp_all [processUpdate, processUpdateGo]

/-- First processed state of the C1 scenario: one blocker, one task in
flight, a neutral summary. -/
def surgeS1 : StructuredState :=
  { emptyState with statusSummary := "All fine", inProgress := ["task a"], blockers := ["b1"] }

/-- Second processed state of the C1 scenario: three blockers (up from 1),
still a neutral summary, nothing in flight. -/
def surgeS2 : StructuredState :=
  { emptyState with statusSummary := "All fine", blockers := ["b1", "b2", "b3"] }

/-- A freshly created project (no updates, no states, no alerts). -/
def freshProject : Project :=
  { id := "p1"
    name := "Demo"
    goal := "Ship"
    status := .active
    updates := []
    currentState := none
    previousState := none
    riskAlerts := []
    initialContext := none
    shareId := none
    isShared := false
    createdAt := some 0
    updatedAt := some 0 }

/-- The project after the first submit-update cycle of the C1 scenario. -/
def afterFirstUpdate : Project :=
  handleUpdate freshProject "first update" (some surgeS1) [] "u1" 100 100

/-- The project after the second submit-update cycle of the C1 scenario. -/
def afterSecondUpdate : Project :=
  handleUpdate afterFirstUpdate "second update" (some surgeS2) [] "u2" 200 200

/-- C1 (code evaluation): `handleUpdate` runs the detector on
`project.previousState`, not on the `currentState` captured at the start of
the cycle.  In the claim's own scenario — a first update installing a state
with 1 blocker, then a second update whose processed result has 3
blockers — the code appends NO alert at all (after the first cycle
`previousState` is still null), while the detector applied to the baseline
the claim prescribes (`currentState` at the start of the second cycle, i.e.
the 1-blocker state) yields exactly one medium `blocker_surge` alert. -/
theorem C1_detector_uses_stale_baseline :
    afterFirstUpdate.currentState = some surgeS1 ∧
    afterFirstUpdate.previousState = none ∧
    afterSecondUpdate.riskAlerts = [] ∧
    detectRiskAlerts afterFirstUpdate.currentState surgeS2 200 =
      [{ type := .blocker_surge, severity := .medium,
         message := surgeMessage 1 3, timestamp := 200 }] := by
  decide

/-- Previous state on file for the C3 scenario: something was in flight and
no blockers were known. -/
def capPrevState : StructuredState :=
  { emptyState with inProgress := ["task a"] }

/-- Newly processed state of the C3 scenario: three blockers and a summary
containing the keyword "stuck", so the detector fires two alerts at once
(blocker surge and status regression). -/
def capNewState : StructuredState :=
  { emptyState with statusSummary := "stuck on deploy", blockers := ["b1", "b2", "b3"] }

/-- A project that already carries 9 recorded risk alerts and whose
`previousState` is `capPrevState`. -/
def capProject : Project :=
  { freshProject with
    previousState := some capPrevState
    currentState := some capPrevState
    riskAlerts := (List.range 9).map (fun i =>
      { type := .stalled_progress, severity := .low, message := "old", timestamp := (i : Int) }) }

/-- C3 (code evaluation): a submit-update cycle appends
`[...riskAlerts.slice(-9), ...newAlerts]`, so when the detector fires 2
alerts against a list that already holds 9, the project ends the cycle with
11 recorded alerts — the 10-alert cap of the claim is exceeded. -/
theorem C3_alert_cap_exceeded :
    (detectRiskAlerts capProject.previousState capNewState 300).length = 2 ∧
    (handleUpdate capProject "third update" (some capNewState) [] "u3" 300 300).riskAlerts.length
      = 11 := by
  decide

end Companion
